import Mathlib

/-!
# Verification of the web-check Scan Orchestration & Live Log Broadcast subsystem

Shallow embedding of the Python sources under `src/api` (routers/scans.py,
services/db_service.py, services/log_streamer.py, services/docker_runner.py,
services/nuclei.py) together with proofs of the spec's claims about them.

External effects (the clock, the docker subprocess, the output file on disk,
exceptions raised by collaborators) are passed in as explicit parameters, so
every embedded function is a total computable Lean function of its inputs.
-/

set_option autoImplicit false

namespace WebCheck

/-! ## Data model (src/api/models/results.py, findings.py) -/

/-- `ScanStatus = Literal["success", "error", "timeout", "running"]`. -/
inductive ScanStatus where
  | success
  | error
  | timeout
  | running
deriving DecidableEq, Repr

/-- `ScanCategory = Literal["quick", "deep", "security"]`. -/
inductive ScanCategory where
  | quick
  | deep
  | security
deriving DecidableEq, Repr

/-- `Severity = Literal["critical", "high", "medium", "low", "info"]`. -/
inductive Severity where
  | critical
  | high
  | medium
  | low
  | info
deriving DecidableEq, Repr

/-- `Finding` (pydantic model in findings.py).  The `cvss_score` float is kept
abstract as an optional numerator-in-tenths natural, which the claims never
inspect. -/
structure Finding where
  severity : Severity
  title : String
  description : String
  reference : Option String
  cve : Option String
  cvss_score : Option Nat
deriving DecidableEq, Repr

/-- `CheckResult` (pydantic model in results.py).  `data` is an opaque JSON
object modelled as a key/value list; `timestamp` is an abstract clock value. -/
structure CheckResult where
  module : String
  category : ScanCategory
  target : String
  timestamp : Nat
  duration_ms : Nat
  status : ScanStatus
  data : Option (List (String × Nat))
  findings : List Finding
  error : Option String
deriving DecidableEq, Repr

/-- `ScanRequest` (results.py): target, optional module list, per-module
timeout in seconds. -/
structure ScanRequest where
  target : String
  modules : Option (List String)
  timeout : Nat
deriving DecidableEq, Repr

/-! ## docker_runner.py: `docker_run` -/

/-- Outcome of the underlying `asyncio.create_subprocess_exec` +
`asyncio.wait_for(process.communicate(), timeout=timeout)` block, the only
effectful part of `docker_run`'s `try`:

* `completed stdout stderr returncode` — the process finished before the
  deadline (`returncode` is `process.returncode`, `None` when unset);
* `timedOut` — `asyncio.wait_for` raised `TimeoutError` (the deadline
  expired);
* `failed msg` — any other exception escaped, with `str(e) = msg`
  (e.g. the docker binary missing). -/
inductive ExecOutcome where
  | completed (stdout stderr : String) (returncode : Option Int)
  | timedOut
  | failed (msg : String)
deriving DecidableEq, Repr

/-- The dictionary `docker_run` returns: keys `stdout`, `stderr`,
`exit_code`, `timeout`. -/
structure DockerResult where
  stdout : String
  stderr : String
  exit_code : Int
  timeout : Bool
deriving DecidableEq, Repr

/-- Return value of `docker_run` plus the observable side effect the claims
mention: whether `process.kill()` was invoked. -/
structure DockerRun where
  result : DockerResult
  killed : Bool
deriving DecidableEq, Repr

/-- `docker_run` (docker_runner.py, lines 40-151), as a function of the
subprocess outcome.  On `TimeoutError` it kills the process and returns
`{"stdout": "", "stderr": "Command timed out", "exit_code": -1,
"timeout": True}`; on any other exception it returns
`{"stdout": "", "stderr": str(e), "exit_code": -1, "timeout": False}`;
on completion `exit_code` is `process.returncode or 0` (Python `or` maps
both `None` and `0` to `0`). -/
def docker_run (exec : ExecOutcome) : DockerRun :=
  match exec with
  | .completed stdout stderr returncode =>
      { result :=
          { stdout := stdout
            stderr := stderr
            exit_code := match returncode with | none => 0 | some c => c
            timeout := false }
        killed := false }
  | .timedOut =>
      { result :=
          { stdout := ""
            stderr := "Command timed out"
            exit_code := -1
            timeout := true }
        killed := true }
  | .failed msg =>
      { result :=
          { stdout := ""
            stderr := msg
            exit_code := -1
            timeout := false }
        killed := false }

/-! ## nuclei.py: `run_nuclei_scan` and `_parse_nuclei_output` -/

/-- One JSONL item of nuclei output, restricted to the keys
`_parse_nuclei_output` reads: `info.severity`, `info.name`,
`info.description`, `info.reference`, `template-id`, `matched-at`.
`none` models an absent key. -/
structure NucleiItem where
  info_severity : Option String
  info_name : Option String
  info_description : Option String
  info_reference : Option String
  template_id : Option String
  matched_at : Option String
deriving DecidableEq, Repr

/-- Severity normalisation in `_parse_nuclei_output`: lowercase the string
and keep it only when it is one of the five known levels, else `info`. -/
def parseSeverity (s : Option String) : Severity :=
  let str := (s.getD "info").toLower
  if str = "critical" then .critical
  else if str = "high" then .high
  else if str = "medium" then .medium
  else if str = "low" then .low
  else if str = "info" then .info
  else .info

/-- `_parse_nuclei_output` (nuclei.py, lines 115-141) over the embedded
items.  (The `not item or not hasattr(item, "get")` guard is a type check
that cannot fire on well-typed items; `item.get("info", {})` defaults each
info field.) -/
def parseNucleiOutput (data : List NucleiItem) : List Finding :=
  data.map fun item =>
    { severity := parseSeverity item.info_severity
      title := item.info_name.getD "Nuclei Finding"
      description := item.info_description.getD "No description available"
      reference := item.info_reference
      cve :=
        if ((item.template_id.getD "").splitOn "CVE").length > 1 then
          item.matched_at
        else none
      cvss_score := none }

/-- How one call of `run_nuclei_scan` unfolds, seen from outside.  Note
the control flow of nuclei.py: the setup `output_dir.mkdir(exist_ok=True)`
(line 32) runs BEFORE the `try` that starts at line 36, so an exception
there propagates to the caller uncaught; and the `finally` block's
`output_file.exists()` / `output_file.unlink()` (lines 109-112) runs after
the `try`/`except` has produced its return value, so an exception there
also propagates to the caller, discarding that value.

* `setupFailed msg` — `output_dir.mkdir` (or another pre-`try` statement)
  raised with `str(e) = msg`; the exception escapes to the caller;
* `run docker fileData cleanupError` — the `try` body runs: `docker_run`
  observes `docker`, and `load_jsonl_output` then yields `fileData` (that
  helper catches all of its own exceptions and returns `[]`, so it never
  raises); `cleanupError = some cmsg` when the `finally` cleanup then
  raised with `str(e) = cmsg`, `none` when it succeeded;
* `raised msg cleanupError` — a statement inside the `try` raised with
  `str(e) = msg` and was caught by the `except`; `cleanupError` as
  above. -/
inductive NucleiExec where
  | setupFailed (msg : String)
  | run (docker : ExecOutcome) (fileData : List NucleiItem)
      (cleanupError : Option String)
  | raised (msg : String) (cleanupError : Option String)
deriving DecidableEq, Repr

/-- `run_nuclei_scan` (nuclei.py, lines 16-112) as a function of the
execution trace.  `now` is the timestamp the result records and `dur` the
measured elapsed milliseconds.  `Except.ok` models a returned
`CheckResult`; `Except.error msg` models an exception with `str(e) = msg`
propagating to the caller (a setup failure before the `try`, or a
`finally`-block cleanup failure replacing the computed return value). -/
def run_nuclei_scan (target : String) (now dur : Nat) (exec : NucleiExec) :
    Except String CheckResult :=
  match exec with
  | .setupFailed msg => .error msg
  | .raised msg cleanupError =>
      (match cleanupError with
       | some cmsg => .error cmsg
       | none =>
           .ok { module := "nuclei"
                 category := .quick
                 target := target
                 timestamp := now
                 duration_ms := dur
                 status := .error
                 data := none
                 findings := []
                 error := some msg })
  | .run docker fileData cleanupError =>
      (match cleanupError with
       | some cmsg => .error cmsg
       | none =>
           let result := (docker_run docker).result
           if result.timeout then
             .ok { module := "nuclei"
                   category := .quick
                   target := target
                   timestamp := now
                   duration_ms := dur
                   status := .timeout
                   data := none
                   findings := []
                   error := some "Scan timed out" }
           else
             let findings := parseNucleiOutput fileData
             .ok { module := "nuclei"
                   category := .quick
                   target := target
                   timestamp := now
                   duration_ms := dur
                   status := .success
                   data := some [("templates_matched", findings.length)]
                   findings := findings
                   error := none })

/-! ## Log events (transient dicts sent through the LogStreamer) -/

/-- The `type` tags appearing in the source's log dicts. -/
inductive LogType where
  | info
  | docker
  | success
  | warning
  | error
  | connected
  | complete
deriving DecidableEq, Repr

/-- A log dict, restricted to the keys the subsystem writes: `type`,
`module`, `message`, `findings_count`, `status`, `command` (absent keys are
`none`; `timestamp`/`scan_id` added by `send_log` are dropped as they carry
no claim content). -/
structure LogEvent where
  type : LogType
  module : Option String
  message : String
  findings_count : Option Nat
  status : Option ScanStatus
  command : Option String
deriving DecidableEq, Repr

/-- A log dict with only `type` and `message` set. -/
def LogEvent.basic (t : LogType) (msg : String) : LogEvent :=
  { type := t
    module := none
    message := msg
    findings_count := none
    status := none
    command := none }

/-! ## routers/scans.py: `_run_scans` -/

/-- The keys of the `module_funcs` dict (scans.py, lines 207-215), in
source order. -/
def module_funcs_keys : List String :=
  ["nuclei", "nikto", "zap", "testssl", "sqlmap", "wapiti", "xsstrike"]

/-- `request.modules or ["nuclei", "nikto", "zap"]` (scans.py, line 196).
Python `or` falls back both on `None` and on an empty list. -/
def resolveModules (req : ScanRequest) : List String :=
  match req.modules with
  | none => ["nuclei", "nikto", "zap"]
  | some [] => ["nuclei", "nikto", "zap"]
  | some l => l

/-- The `module=` literal that the scanner registered under a
`module_funcs` key stamps on every `CheckResult` it returns (each scanner
file uses one fixed literal on all its return paths): `"testssl"` is bound
to `run_sslyze_scan`, whose results say `module="sslyze"`; every other key
is bound to a scanner using the key itself. -/
def scannerModuleName (key : String) : String :=
  if key = "testssl" then "sslyze" else key

/-- The `category=` literal of the scanner registered under each key
(`nuclei.py`/`nikto.py`: "quick"; `zap_native.py`/`sslyze_scanner.py`:
"deep"; `sqlmap_scanner.py`/`wapiti_scanner.py`/`xsstrike_scanner.py`:
"security"). -/
def scannerCategory (key : String) : ScanCategory :=
  if key = "nuclei" ∨ key = "nikto" then .quick
  else if key = "zap" ∨ key = "testssl" then .deep
  else .security

/-- The per-invocation part of a scanner's returned `CheckResult` (its
module/category are the fixed literals above, its target the one passed
in). -/
structure ScannerRun where
  timestamp : Nat
  duration_ms : Nat
  status : ScanStatus
  data : Option (List (String × Nat))
  findings : List Finding
  error : Option String
deriving DecidableEq, Repr

/-- What one `await module_funcs[module](target, timeout)` call does:
return a result, or raise with message `str(e) = msg`. -/
inductive ModuleOutcome where
  | returns (run : ScannerRun)
  | raises (msg : String)
deriving DecidableEq, Repr

/-- Whether a module call returned (rather than raised). -/
def ModuleOutcome.isReturn : ModuleOutcome → Bool
  | .returns _ => true
  | .raises _ => false

/-- The `CheckResult` a registered scanner returns for one invocation. -/
def mkModuleResult (key target : String) (run : ScannerRun) : CheckResult :=
  { module := scannerModuleName key
    category := scannerCategory key
    target := target
    timestamp := run.timestamp
    duration_ms := run.duration_ms
    status := run.status
    data := run.data
    findings := run.findings
    error := run.error }

/-- The `docker`-typed progress event emitted before each module run
(scans.py, lines 221-229). -/
def dockerEvent (m : String) : LogEvent :=
  { type := .docker
    module := some m
    message := "Running " ++ m ++ " container..."
    findings_count := none
    status := none
    command := some ("docker exec security-scanner-" ++ m) }

/-- The `success`-typed event emitted after a module returns (scans.py,
lines 235-244). -/
def successEvent (m : String) (r : CheckResult) : LogEvent :=
  { type := .success
    module := some m
    message := m ++ " scan completed"
    findings_count := some r.findings.length
    status := some r.status
    command := none }

/-- The `error`-typed event emitted when a module raises (scans.py, lines
246-249). -/
def errorEvent (m msg : String) : LogEvent :=
  { type := .error
    module := some m
    message := m ++ " scan failed: " ++ msg
    findings_count := none
    status := none
    command := none }

/-- The initial `info` event (scans.py, lines 199-202). -/
def startEvent (mods : List String) : LogEvent :=
  LogEvent.basic .info
    ("Starting scan with modules: " ++ String.intercalate ", " mods)

/-- The `for module in modules` loop of `_run_scans` (scans.py, lines
217-249): unknown names are skipped with `continue`; a known module emits
its `docker` event, then either returns (append result, emit `success`
event) or raises (emit `error` event, no result).  `beh` gives each
module call's outcome.  Returns the per-module events and the in-memory
`results` accumulator, both in emission order. -/
def runModulesLoop (target : String) (beh : String → ModuleOutcome) :
    List String → List LogEvent × List CheckResult
  | [] => ([], [])
  | m :: rest =>
      if m ∈ module_funcs_keys then
        let tail := runModulesLoop target beh rest
        match beh m with
        | .returns run =>
            let r := mkModuleResult m target run
            (dockerEvent m :: successEvent m r :: tail.1, r :: tail.2)
        | .raises msg =>
            (dockerEvent m :: errorEvent m msg :: tail.1, tail.2)
      else runModulesLoop target beh rest

/-- All events `_run_scans` publishes to the LogStreamer for one scan, in
publish order (the terminal `complete` event goes through
`mark_scan_complete` and is modelled with the Hub below). -/
def runScansEvents (req : ScanRequest) (beh : String → ModuleOutcome) :
    List LogEvent :=
  startEvent (resolveModules req) ::
    (runModulesLoop req.target beh (resolveModules req)).1

/-- The `results` accumulator at the end of the module loop. -/
def runScansResults (req : ScanRequest) (beh : String → ModuleOutcome) :
    List CheckResult :=
  (runModulesLoop req.target beh (resolveModules req)).2

/-! ## services/db_service.py: scan records and the persistence step -/

/-- One database write issued by `_run_scans`' persistence block. -/
inductive DbOp where
  | saveResult (r : CheckResult)
  | updateStatus (status : ScanStatus)
deriving DecidableEq, Repr

/-- The persistence block of `_run_scans` (scans.py, lines 251-257): one
`save_scan_result` per accumulated result, in order, then a single
`update_scan_status(session, scan_id, "success")`. -/
def runScansDbOps (req : ScanRequest) (beh : String → ModuleOutcome) :
    List DbOp :=
  (runScansResults req beh).map DbOp.saveResult ++
    [DbOp.updateStatus .success]

/-- The mutable columns of one `Scan` row that the claims speak about. -/
structure ScanRecord where
  status : ScanStatus
  started_at : Nat
  completed_at : Option Nat
deriving DecidableEq, Repr

/-- `status in ("success", "error", "timeout")` (db_service.py, line 63). -/
def isTerminal (s : ScanStatus) : Bool :=
  s = ScanStatus.success || s = ScanStatus.error || s = ScanStatus.timeout

/-- `create_scan` (db_service.py, lines 12-43): the new row has
`status="running"` and no completion time. -/
def create_scan (startTime : Nat) : ScanRecord :=
  { status := .running
    started_at := startTime
    completed_at := none }

/-- `update_scan_status` (db_service.py, lines 46-65): unconditionally
overwrites `status`, and stamps `completed_at = now` whenever the new
status is terminal. -/
def update_scan_status (now : Nat) (rec : ScanRecord) (status : ScanStatus) :
    ScanRecord :=
  { rec with
    status := status
    completed_at := if isTerminal status then some now else rec.completed_at }

/-- Effect of one database write on the scan's row (`save_scan_result`
inserts into `scan_results` and does not touch the `scans` row). -/
def applyDbOp (now : Nat) (rec : ScanRecord) : DbOp → ScanRecord
  | .saveResult _ => rec
  | .updateStatus st => update_scan_status now rec st

/-- The successive states of a scan's row over its whole lifecycle: the
row `create_scan` inserts, then the state after each write `_run_scans`
issues (`scan_id` collisions aside, no other code path writes this row). -/
def scanRecordTrace (start now : Nat) (ops : List DbOp) : List ScanRecord :=
  List.scanl (applyDbOp now) (create_scan start) ops

/-- The scan's row after all of `_run_scans`' writes. -/
def finalScanRecord (start now : Nat) (ops : List DbOp) : ScanRecord :=
  ops.foldl (applyDbOp now) (create_scan start)

/-- The whole lifecycle of one scan's row as the orchestrator drives it:
the states from creation through every write of the background run. -/
def scanLifecycleTrace (req : ScanRequest) (beh : String → ModuleOutcome)
    (start now : Nat) : List ScanRecord :=
  scanRecordTrace start now (runScansDbOps req beh)

/-- The consecutive pairs of states in a row's lifecycle. -/
def adjacentPairs : List ScanRecord → List (ScanRecord × ScanRecord)
  | a :: b :: rest => (a, b) :: adjacentPairs (b :: rest)
  | _ => []

/-- The lifecycle steps on which the row's `status` changed. -/
def statusChanges (tr : List ScanRecord) : List (ScanRecord × ScanRecord) :=
  (adjacentPairs tr).filter fun p => decide (p.1.status ≠ p.2.status)

/-- The lifecycle steps on which the row's `completed_at` changed. -/
def completionWrites (tr : List ScanRecord) : List (ScanRecord × ScanRecord) :=
  (adjacentPairs tr).filter fun p => decide (p.1.completed_at ≠ p.2.completed_at)

/-! ## services/log_streamer.py: the LogStreamer hub

`_queues` and `_scan_status` are Python dicts; they are embedded as
association lists with unique keys (insertion order preserved, as in
Python).  One subscriber queue is the list of entries delivered to it,
oldest first. -/

/-- Association-list lookup (Python `d[k]` / `k in d`). -/
def alookup {α : Type} : List (String × α) → String → Option α
  | [], _ => none
  | (k, v) :: rest, key => if k = key then some v else alookup rest key

/-- Association-list update of an existing key (Python mutation of
`d[k]`). -/
def aupdate {α : Type} (key : String) (f : α → α) :
    List (String × α) → List (String × α)
  | [] => []
  | (k, v) :: rest =>
      if k = key then (k, f v) :: rest else (k, v) :: aupdate key f rest

/-- Association-list key removal (Python `del d[k]`). -/
def aremove {α : Type} (key : String) :
    List (String × α) → List (String × α)
  | [] => []
  | (k, v) :: rest => if k = key then rest else (k, v) :: aremove key rest

/-- Association-list insert-or-overwrite (Python `d[k] = v`). -/
def aset {α : Type} (key : String) (v : α) :
    List (String × α) → List (String × α)
  | [] => [(key, v)]
  | (k, w) :: rest =>
      if k = key then (k, v) :: rest else (k, w) :: aset key v rest

/-- One subscriber queue: the entries put into it, oldest first. -/
abbrev Queue := List LogEvent

/-- The LogStreamer's state: `_queues` (scan id to its list of subscriber
queues) and `_scan_status` (scan id to a status string). -/
structure HubState where
  queues : List (String × List Queue)
  scanStatus : List (String × String)
deriving DecidableEq, Repr

/-- `LogStreamer.__init__` (log_streamer.py, lines 18-21): both dicts
start empty (the defaultdict default materialises keys only on access). -/
def hubInit : HubState :=
  { queues := [], scanStatus := [] }

/-- `log_streamer._scan_status[scan_id] = "running"` executed by
`start_scan` (scans.py, line 51). -/
def hubStartScan (h : HubState) (scanId : String) : HubState :=
  { h with scanStatus := aset scanId "running" h.scanStatus }

/-- `send_log` (log_streamer.py, lines 23-46): when the scan has no
`_queues` entry the event is dropped; otherwise it is appended to every
subscriber queue of that scan. -/
def send_log (h : HubState) (scanId : String) (e : LogEvent) : HubState :=
  match alookup h.queues scanId with
  | none => h
  | some _ =>
      { h with
        queues := aupdate scanId (List.map (fun q => q ++ [e])) h.queues }

/-- The registration step of `subscribe` (log_streamer.py, lines 58-59):
`self._queues[scan_id].append(asyncio.Queue())` — the defaultdict
materialises a fresh entry when absent, and the new queue is empty. -/
def hubSubscribe (h : HubState) (scanId : String) : HubState :=
  match alookup h.queues scanId with
  | none => { h with queues := h.queues ++ [(scanId, [[]])] }
  | some _ =>
      { h with queues := aupdate scanId (fun qs => qs ++ [[]]) h.queues }

/-- The `finally` block of `subscribe` (log_streamer.py, lines 94-104):
the detaching subscriber removes its own queue (here, by its position
`i`), and deletes the scan's `_queues` entry when no queue remains. -/
def hubUnsubscribe (h : HubState) (scanId : String) (i : Nat) : HubState :=
  match alookup h.queues scanId with
  | none => h
  | some qs =>
      let qs' := qs.eraseIdx i
      if qs'.isEmpty then { h with queues := aremove scanId h.queues }
      else { h with queues := aupdate scanId (fun _ => qs') h.queues }

/-- The terminal event `mark_scan_complete` publishes (log_streamer.py,
lines 106-116). -/
def completeEvent : LogEvent :=
  LogEvent.basic .complete "Scan completed"

/-- `mark_scan_complete` (log_streamer.py, lines 106-116): schedules a
`send_log` of the `complete` event (the scheduled task runs the same
`send_log` embedded above). -/
def mark_scan_complete (h : HubState) (scanId : String) : HubState :=
  send_log h scanId completeEvent

/-- A sequence of `send_log` calls for one scan, in publish order. -/
def publishAll (h : HubState) (scanId : String) (evs : List LogEvent) :
    HubState :=
  evs.foldl (fun acc e => send_log acc scanId e) h

/-! ### One subscriber's yield sequence -/

/-- The initial connection message of `subscribe` (log_streamer.py,
lines 67-72). -/
def connectedEvent : LogEvent :=
  LogEvent.basic .connected "Connecté au stream de logs"

/-- One SSE frame yielded by `subscribe`: a `data: <json>` frame carrying
a log entry, or the `: keepalive` comment frame. -/
inductive Frame where
  | data (e : LogEvent)
  | keepalive
deriving DecidableEq, Repr

/-- What one iteration of the `while True` loop observes on the
subscriber's queue: an entry arrived within the 30-second window
(`item`), or `asyncio.wait_for` timed out (`idle`). -/
inductive QueueStep where
  | item (e : LogEvent)
  | idle
deriving DecidableEq, Repr

/-- A prefix of a subscriber stream: the frames yielded so far, and
whether the generator's loop has reached its `break` (the stream ended of
its own accord rather than by client disconnect). -/
structure StreamOut where
  frames : List Frame
  ended : Bool
deriving DecidableEq, Repr

/-- The `while True` loop of `subscribe` (log_streamer.py, lines 76-92):
an `idle` window yields a keepalive frame and loops; an entry is yielded
as a data frame, and the loop `break`s exactly when the entry's type is
`complete`.  An exhausted step list with no `complete` seen means the
generator is still suspended waiting on its queue. -/
def consumeSteps : List QueueStep → StreamOut
  | [] => { frames := [], ended := false }
  | .idle :: rest =>
      let r := consumeSteps rest
      { frames := .keepalive :: r.frames, ended := r.ended }
  | .item e :: rest =>
      if e.type = LogType.complete then
        { frames := [.data e], ended := true }
      else
        let r := consumeSteps rest
        { frames := .data e :: r.frames, ended := r.ended }

/-- The full yield sequence of `subscribe` (log_streamer.py, lines
65-92): the `connected` frame first, then the loop above. -/
def subscribeStream (steps : List QueueStep) : StreamOut :=
  let r := consumeSteps steps
  { frames := .data connectedEvent :: r.frames, ended := r.ended }

/-- Whether a frame delivers a `complete`-typed event. -/
def isCompleteFrame : Frame → Bool
  | .data e => e.type = LogType.complete
  | .keepalive => false

/-! ## Concrete inputs used by witnesses and counterexamples -/

/-- A fixed scanner outcome: an empty, successful run. -/
def runW : ScannerRun :=
  { timestamp := 0
    duration_ms := 5
    status := .success
    data := none
    findings := []
    error := none }

/-- A module behaviour where every call returns `runW` (no executor ever
raises). -/
def behW : String → ModuleOutcome := fun _ => ModuleOutcome.returns runW

/-- A request selecting only the registry key `"testssl"`. -/
def testsslReq : ScanRequest :=
  { target := "https://example.com", modules := some ["testssl"], timeout := 60 }

/-- A request selecting `"nuclei"` and `"nikto"`. -/
def reqW : ScanRequest :=
  { target := "https://example.com", modules := some ["nuclei", "nikto"], timeout := 300 }

/-- The hub after: scan "s" starts, one subscriber joins, one `info` event
is published, the scan completes, the (only) subscriber detaches, and a
late subscriber then joins. -/
def lateHub : HubState :=
  hubSubscribe
    (hubUnsubscribe
      (mark_scan_complete
        (publishAll (hubSubscribe (hubStartScan hubInit "s") "s") "s"
          [LogEvent.basic .info "x"])
        "s")
      "s" 0)
    "s"

/-- The hub after two whole scans ("scan-a", then "scan-b") ran to
completion with no subscriber ever attached. -/
def historicalHub : HubState :=
  mark_scan_complete
    (hubStartScan
      (mark_scan_complete (hubStartScan hubInit "scan-a") "scan-a")
      "scan-b")
    "scan-b"

/-- Whether the hub still holds any per-scan state for `sid`, in either of
its two dicts. -/
def hubRetainsScan (h : HubState) (sid : String) : Bool :=
  (alookup h.queues sid).isSome || (alookup h.scanStatus sid).isSome

/-! # Theorems -/

/-- C10: `docker_run` is total — every subprocess outcome maps to a
returned record with the four fields `stdout`, `stderr`, `exit_code`,
`timeout`; on deadline expiry it returns `exit_code = -1`, `timeout =
true` and empty stdout (after killing the process); on any other internal
exception it returns `exit_code = -1`, `timeout = false` and the
exception's message as stderr; on completion it passes the streams
through with `exit_code = returncode or 0`. -/
theorem c10_docker_run_total :
    (∀ stdout stderr rc, docker_run (.completed stdout stderr rc) =
      { result :=
          { stdout := stdout
            stderr := stderr
            exit_code := match rc with | none => 0 | some c => c
            timeout := false }
        killed := false }) ∧
    (docker_run .timedOut =
      { result :=
          { stdout := ""
            stderr := "Command timed out"
            exit_code := -1
            timeout := true }
        killed := true }) ∧
    (∀ msg, docker_run (.failed msg) =
      { result := { stdout := "", stderr := msg, exit_code := -1, timeout := false }
        killed := false }) :=
  ⟨fun _ _ _ => rfl, rfl, fun _ => rfl⟩

/-- C3: when the underlying execution exceeds the per-module timeout,
`docker_run` kills the process and reports `timeout`, and
`run_nuclei_scan` returns a result with status `timeout` and an empty
findings list — never `success`: with a clean cleanup it returns exactly
the timeout record, and whatever result it does return, for any cleanup
outcome, has status `timeout` and no findings. -/
theorem c3_timeout_never_success (target : String) (now dur : Nat)
    (fileData : List NucleiItem) :
    (docker_run .timedOut).killed = true ∧
    (docker_run .timedOut).result.timeout = true ∧
    run_nuclei_scan target now dur (.run .timedOut fileData none) =
      .ok { module := "nuclei"
            category := .quick
            target := target
            timestamp := now
            duration_ms := dur
            status := .timeout
            data := none
            findings := []
            error := some "Scan timed out" } ∧
    (∀ (cleanupError : Option String) (r : CheckResult),
      run_nuclei_scan target now dur (.run .timedOut fileData cleanupError) =
        .ok r →
      r.status = ScanStatus.timeout ∧ r.findings = [] ∧
        r.status ≠ ScanStatus.success) := by
  refine ⟨rfl, rfl, rfl, ?_⟩
  intro cleanupError r h
  cases cleanupError with
  | some cmsg =>
      simp only [run_nuclei_scan] at h
      exact Except.noConfusion h
  | none =>
      injection h with h
      subst h
      exact ⟨rfl, rfl, fun hc => ScanStatus.noConfusion hc⟩

/-- C4 counterexample: the run CAN raise to its caller — a setup failure
in `output_dir.mkdir` (which sits outside the `try`, nuclei.py line 32)
propagates as an exception — and when the execution collaborator is
unreachable (`docker_run`'s internal exception path, e.g. the docker
daemon down), the run returns status `success` with no error message —
not the claimed `error`-status result carrying the exception's message
(`docker_run` swallows the exception into a returned record whose
`exit_code`/`stderr` the nuclei wrapper never inspects). -/
theorem c4_counterexample :
    run_nuclei_scan "https://example.com" 0 5
        (.setupFailed "Permission denied") =
      Except.error "Permission denied" ∧
    (∃ r, run_nuclei_scan "https://example.com" 0 5
        (.run (.failed "Cannot connect to the Docker daemon") [] none) =
      Except.ok r ∧ r.status = ScanStatus.success ∧ r.error = none) :=
  ⟨rfl, ⟨_, rfl, rfl, rfl⟩⟩

/-- C4 amended: only exceptions raised inside `run_nuclei_scan`'s `try`
are contained — when the `finally` cleanup succeeds they are normalized
into a returned `status=error` ScanResult carrying the exception's
message.  The run is not exception-free towards its caller: a setup
failure before the `try` (`output_dir.mkdir`) propagates, and a
`finally`-block cleanup failure propagates and discards the computed
result; moreover a collaborator failure swallowed by `docker_run` yields
a returned `status=success` result with `error = none` (the
collaborator's failure record is ignored), not an `error`-status one. -/
theorem c4_amended_normalizes_only_try :
    (∀ target now dur msg,
      run_nuclei_scan target now dur (.raised msg none) =
        .ok { module := "nuclei"
              category := .quick
              target := target
              timestamp := now
              duration_ms := dur
              status := .error
              data := none
              findings := []
              error := some msg }) ∧
    (∀ target now dur msg,
      run_nuclei_scan target now dur (.setupFailed msg) = .error msg) ∧
    (∀ target now dur msg cmsg,
      run_nuclei_scan target now dur (.raised msg (some cmsg)) =
        .error cmsg) ∧
    (∀ target now dur docker fileData cmsg,
      run_nuclei_scan target now dur (.run docker fileData (some cmsg)) =
        .error cmsg) ∧
    (∀ target now dur msg fileData,
      ∃ r, run_nuclei_scan target now dur
          (.run (.failed msg) fileData none) = .ok r ∧
        r.status = ScanStatus.success ∧ r.error = none) :=
  ⟨fun _ _ _ _ => rfl, fun _ _ _ _ => rfl, fun _ _ _ _ _ => rfl,
   fun _ _ _ _ _ _ => rfl, fun _ _ _ _ _ => ⟨_, rfl, rfl, rfl⟩⟩

/-! ### Orchestrator lemmas -/

/-- Unfolding: a known module whose call returns. -/
theorem runModulesLoop_cons_returns (t : String) (beh : String → ModuleOutcome)
    (a : String) (l : List String) (run : ScannerRun)
    (ha : a ∈ module_funcs_keys) (hb : beh a = .returns run) :
    runModulesLoop t beh (a :: l) =
      (dockerEvent a :: successEvent a (mkModuleResult a t run) ::
         (runModulesLoop t beh l).1,
       mkModuleResult a t run :: (runModulesLoop t beh l).2) := by
  simp only [runModulesLoop, if_pos ha, hb]

/-- Unfolding: a known module whose call raises. -/
theorem runModulesLoop_cons_raises (t : String) (beh : String → ModuleOutcome)
    (a : String) (l : List String) (msg : String)
    (ha : a ∈ module_funcs_keys) (hb : beh a = .raises msg) :
    runModulesLoop t beh (a :: l) =
      (dockerEvent a :: errorEvent a msg :: (runModulesLoop t beh l).1,
       (runModulesLoop t beh l).2) := by
  simp only [runModulesLoop, if_pos ha, hb]

/-- Unfolding: an unknown module name is skipped. -/
theorem runModulesLoop_cons_unknown (t : String) (beh : String → ModuleOutcome)
    (a : String) (l : List String) (ha : a ∉ module_funcs_keys) :
    runModulesLoop t beh (a :: l) = runModulesLoop t beh l := by
  simp only [runModulesLoop, if_neg ha]

/-- Removing an unknown name from the module list changes nothing. -/
theorem runModulesLoop_unknown_erased (t : String) (beh : String → ModuleOutcome)
    (m : String) (hm : m ∉ module_funcs_keys) :
    ∀ l1 l2 : List String,
      runModulesLoop t beh (l1 ++ m :: l2) = runModulesLoop t beh (l1 ++ l2) := by
  intro l1
  induction l1 with
  | nil =>
      intro l2
      simpa using runModulesLoop_cons_unknown t beh m l2 hm
  | cons a l ih =>
      intro l2
      by_cases ha : a ∈ module_funcs_keys
      · cases hb : beh a with
        | returns run =>
            rw [List.cons_append, List.cons_append,
              runModulesLoop_cons_returns t beh a _ run ha hb,
              runModulesLoop_cons_returns t beh a _ run ha hb, ih]
        | raises msg =>
            rw [List.cons_append, List.cons_append,
              runModulesLoop_cons_raises t beh a _ msg ha hb,
              runModulesLoop_cons_raises t beh a _ msg ha hb, ih]
      · rw [List.cons_append, List.cons_append,
          runModulesLoop_cons_unknown t beh a _ ha,
          runModulesLoop_cons_unknown t beh a _ ha, ih]

/-- Every emitted per-module event and every accumulated result comes from
a known module of the list (events carry that module's name; results carry
the module-name literal of the scanner registered under it). -/
theorem runModulesLoop_provenance (t : String) (beh : String → ModuleOutcome) :
    ∀ l : List String,
      (∀ e ∈ (runModulesLoop t beh l).1, ∃ m, m ∈ l ∧ m ∈ module_funcs_keys ∧
        e.module = some m) ∧
      (∀ r ∈ (runModulesLoop t beh l).2, ∃ m, m ∈ l ∧ m ∈ module_funcs_keys ∧
        r.module = scannerModuleName m) := by
  intro l
  induction l with
  | nil => exact ⟨fun e he => absurd he (List.not_mem_nil e),
      fun r hr => absurd hr (List.not_mem_nil r)⟩
  | cons a l ih =>
      obtain ⟨ihE, ihR⟩ := ih
      by_cases ha : a ∈ module_funcs_keys
      · cases hb : beh a with
        | returns run =>
            rw [runModulesLoop_cons_returns t beh a l run ha hb]
            constructor
            · intro e he
              simp only [List.mem_cons] at he
              rcases he with rfl | rfl | he
              · exact ⟨a, List.mem_cons_self a l, ha, rfl⟩
              · exact ⟨a, List.mem_cons_self a l, ha, rfl⟩
              · obtain ⟨m, hml, hmk, hmod⟩ := ihE e he
                exact ⟨m, List.mem_cons_of_mem a hml, hmk, hmod⟩
            · intro r hr
              simp only [List.mem_cons] at hr
              rcases hr with rfl | hr
              · exact ⟨a, List.mem_cons_self a l, ha, rfl⟩
              · obtain ⟨m, hml, hmk, hmod⟩ := ihR r hr
                exact ⟨m, List.mem_cons_of_mem a hml, hmk, hmod⟩
        | raises msg =>
            rw [runModulesLoop_cons_raises t beh a l msg ha hb]
            constructor
            · intro e he
              simp only [List.mem_cons] at he
              rcases he with rfl | rfl | he
              · exact ⟨a, List.mem_cons_self a l, ha, rfl⟩
              · exact ⟨a, List.mem_cons_self a l, ha, rfl⟩
              · obtain ⟨m, hml, hmk, hmod⟩ := ihE e he
                exact ⟨m, List.mem_cons_of_mem a hml, hmk, hmod⟩
            · intro r hr
              obtain ⟨m, hml, hmk, hmod⟩ := ihR r hr
              exact ⟨m, List.mem_cons_of_mem a hml, hmk, hmod⟩
      · rw [runModulesLoop_cons_unknown t beh a l ha]
        constructor
        · intro e he
          obtain ⟨m, hml, hmk, hmod⟩ := ihE e he
          exact ⟨m, List.mem_cons_of_mem a hml, hmk, hmod⟩
        · intro r hr
          obtain ⟨m, hml, hmk, hmod⟩ := ihR r hr
          exact ⟨m, List.mem_cons_of_mem a hml, hmk, hmod⟩

/-- When no known module's call raises, the loop accumulates exactly one
result per known module of the list. -/
theorem runModulesLoop_length_no_raise (t : String) (beh : String → ModuleOutcome) :
    ∀ l : List String,
      (∀ m ∈ l, m ∈ module_funcs_keys → (beh m).isReturn = true) →
      (runModulesLoop t beh l).2.length =
        (l.filter fun m => decide (m ∈ module_funcs_keys)).length := by
  intro l
  induction l with
  | nil => intro _; rfl
  | cons a l ih =>
      intro hall
      have hl : ∀ m ∈ l, m ∈ module_funcs_keys → (beh m).isReturn = true :=
        fun m hm => hall m (List.mem_cons_of_mem a hm)
      by_cases ha : a ∈ module_funcs_keys
      · cases hb : beh a with
        | returns run =>
            rw [runModulesLoop_cons_returns t beh a l run ha hb]
            simp [List.filter_cons, ha, ih hl]
        | raises msg =>
            have hret := hall a (List.mem_cons_self a l) ha
            rw [hb] at hret
            exact absurd hret (by simp [ModuleOutcome.isReturn])
      · rw [runModulesLoop_cons_unknown t beh a l ha]
        simp [List.filter_cons, ha, ih hl]

/-- C1 counterexample: selecting the registry key `"testssl"` (known, and
its call returns) persists one ScanResult, but that result's `module`
field is `"sslyze"` — the literal stamped by `run_sslyze_scan` — which is
not a module in the original selection. -/
theorem c1_counterexample :
    ¬ (∀ r ∈ runScansResults testsslReq behW,
        r.module ∈ resolveModules testsslReq) := by
  decide

/-- C1 amended: each attempted (selected and known) module whose call
returns contributes exactly one ScanResult to the persistence step — when
no known selected module's call raises, exactly one result is persisted
per known selected module, and each persisted result carries the fixed
module-name literal of the scanner registered under some selected module
(the selected name itself, except `"testssl"`, whose scanner labels its
results `"sslyze"`). -/
theorem c1_one_result_per_module (req : ScanRequest)
    (beh : String → ModuleOutcome)
    (hret : ∀ m ∈ resolveModules req, m ∈ module_funcs_keys →
      (beh m).isReturn = true) :
    runScansDbOps req beh =
      (runScansResults req beh).map DbOp.saveResult ++
        [DbOp.updateStatus .success] ∧
    (runScansResults req beh).length =
      ((resolveModules req).filter fun m =>
        decide (m ∈ module_funcs_keys)).length ∧
    ∀ r ∈ runScansResults req beh, ∃ m, m ∈ resolveModules req ∧
      m ∈ module_funcs_keys ∧ r.module = scannerModuleName m := by
  refine ⟨rfl, ?_, ?_⟩
  · exact runModulesLoop_length_no_raise req.target beh (resolveModules req) hret
  · exact (runModulesLoop_provenance req.target beh (resolveModules req)).2

/-- C1 witness: a request for `["nuclei", "nikto"]` with no call raising. -/
theorem c1_one_result_per_module_witness :
    runScansDbOps reqW behW =
      (runScansResults reqW behW).map DbOp.saveResult ++
        [DbOp.updateStatus .success] ∧
    (runScansResults reqW behW).length =
      ((resolveModules reqW).filter fun m =>
        decide (m ∈ module_funcs_keys)).length ∧
    ∀ r ∈ runScansResults reqW behW, ∃ m, m ∈ resolveModules reqW ∧
      m ∈ module_funcs_keys ∧ r.module = scannerModuleName m :=
  c1_one_result_per_module reqW behW (by decide)

/-- Saving results does not touch the scan's row. -/
theorem foldl_saveResults (now : Nat) :
    ∀ (rs : List CheckResult) (rec : ScanRecord),
      (rs.map DbOp.saveResult).foldl (applyDbOp now) rec = rec := by
  intro rs
  induction rs with
  | nil => intro _; rfl
  | cons r rs ih =>
      intro rec
      simp only [List.map_cons, List.foldl_cons]
      exact ih rec

/-- C2: the background run's persistence step first saves every
accumulated ScanResult and only then issues its single status write,
which is always `success` — whatever the per-module outcomes were — so
the scan's row ends as `success` with its completion time set, and
per-module failure is never reflected in the scan's own status. -/
theorem c2_terminal_status_success (req : ScanRequest)
    (beh : String → ModuleOutcome) (start now : Nat) :
    (runScansDbOps req beh).getLast? = some (DbOp.updateStatus .success) ∧
    (runScansDbOps req beh).dropLast =
      (runScansResults req beh).map DbOp.saveResult ∧
    finalScanRecord start now (runScansDbOps req beh) =
      { status := .success, started_at := start, completed_at := some now } ∧
    (∀ st, DbOp.updateStatus st ∈ runScansDbOps req beh →
      st = ScanStatus.success) := by
  refine ⟨?_, ?_, ?_, ?_⟩
  · simp [runScansDbOps]
  · simp [runScansDbOps]
  · simp only [finalScanRecord, runScansDbOps, List.foldl_append,
      foldl_saveResults]
    rfl
  · intro st hst
    rw [runScansDbOps, List.mem_append] at hst
    rcases hst with h | h
    · rw [List.mem_map] at h
      obtain ⟨r, _, hr⟩ := h
      exact absurd hr (by simp)
    · rw [List.mem_singleton] at h
      simpa using h

/-- The scan-row trace over the saves is constant. -/
theorem scanl_saveResults (now : Nat) :
    ∀ (rs : List CheckResult) (rec : ScanRecord) (rest : List DbOp),
      List.scanl (applyDbOp now) rec (rs.map DbOp.saveResult ++ rest) =
        List.replicate rs.length rec ++ List.scanl (applyDbOp now) rec rest := by
  intro rs
  induction rs with
  | nil => intro _ _; rfl
  | cons r rs ih =>
      intro rec rest
      simp only [List.map_cons, List.cons_append, List.scanl, List.append_eq,
        List.length_cons, List.replicate_succ]
      rw [show applyDbOp now rec (DbOp.saveResult r) = rec from rfl, ih]

/-- `adjacentPairs` of a cons-cons list. -/
theorem adjacentPairs_cons_cons (x y : ScanRecord) (l : List ScanRecord) :
    adjacentPairs (x :: y :: l) = (x, y) :: adjacentPairs (y :: l) := rfl

/-- A constant block followed by `[a, b]` starts with `a`. -/
theorem replicate_concat_head (a b : ScanRecord) :
    ∀ n, ∃ t, List.replicate n a ++ [a, b] = a :: t
  | 0 => ⟨[b], rfl⟩
  | n + 1 => ⟨List.replicate n a ++ [a, b],
      by rw [List.replicate_succ, List.cons_append]⟩

/-- `adjacentPairs` over a constant block closed by one final change. -/
theorem adjacentPairs_replicate (a b : ScanRecord) :
    ∀ n, adjacentPairs (List.replicate n a ++ [a, b]) =
      List.replicate n (a, a) ++ [(a, b)] := by
  intro n
  induction n with
  | zero => rfl
  | succ n ih =>
      obtain ⟨t, ht⟩ := replicate_concat_head a b n
      rw [List.replicate_succ, List.cons_append, ht,
        adjacentPairs_cons_cons, ← ht, ih, List.replicate_succ,
        List.cons_append]

/-- Filtering away a constant block whose element fails the predicate. -/
theorem filter_replicate_false {α : Type} (p : α → Bool) (x : α)
    (hp : p x = false) : ∀ n, (List.replicate n x).filter p = [] := by
  intro n
  induction n with
  | zero => rfl
  | succ n ih => rw [List.replicate_succ, List.filter_cons, hp]; simpa using ih

/-- The explicit shape of a scan row's lifecycle: constant at the created
`running` state through every result save, then the one terminal write. -/
theorem scanLifecycleTrace_shape (req : ScanRequest)
    (beh : String → ModuleOutcome) (start now : Nat) :
    scanLifecycleTrace req beh start now =
      List.replicate (runScansResults req beh).length (create_scan start) ++
        [create_scan start,
         { status := .success, started_at := start, completed_at := some now }] := by
  simp only [scanLifecycleTrace, scanRecordTrace, runScansDbOps,
    scanl_saveResults]
  rfl

/-- C7: over a scan's whole lifecycle, every status change goes from
`running` to a terminal status (never backward, never between terminal
states), and `completed_at` is written exactly once — on that first (and
only) terminal transition. -/
theorem c7_single_terminal_transition (req : ScanRequest)
    (beh : String → ModuleOutcome) (start now : Nat) :
    (∀ p ∈ statusChanges (scanLifecycleTrace req beh start now),
      p.1.status = ScanStatus.running ∧ isTerminal p.2.status = true) ∧
    (completionWrites (scanLifecycleTrace req beh start now)).length = 1 ∧
    (∀ p ∈ completionWrites (scanLifecycleTrace req beh start now),
      p.1.completed_at = none ∧ p.2.completed_at = some now ∧
      p.1.status = ScanStatus.running ∧ isTerminal p.2.status = true) := by
  have hsc : statusChanges (scanLifecycleTrace req beh start now) =
      [(create_scan start,
        { status := .success, started_at := start, completed_at := some now })] := by
    rw [statusChanges, scanLifecycleTrace_shape, adjacentPairs_replicate,
      List.filter_append, filter_replicate_false _ _ (by simp)]
    rfl
  have hcw : completionWrites (scanLifecycleTrace req beh start now) =
      [(create_scan start,
        { status := .success, started_at := start, completed_at := some now })] := by
    rw [completionWrites, scanLifecycleTrace_shape, adjacentPairs_replicate,
      List.filter_append, filter_replicate_false _ _ (by simp)]
    rfl
  refine ⟨?_, ?_, ?_⟩
  · intro p hp
    rw [hsc, List.mem_singleton] at hp
    subst hp
    exact ⟨rfl, rfl⟩
  · rw [hcw]; rfl
  · intro p hp
    rw [hcw, List.mem_singleton] at hp
    subst hp
    exact ⟨rfl, rfl, rfl, rfl⟩

/-- C9: a request that omits the module list runs the fixed default set
`["nuclei", "nikto", "zap"]`; an unknown requested module name is
silently skipped — removing it from the list changes neither the emitted
events nor the accumulated results, and no per-module event ever names
it. -/
theorem c9_unknown_silently_skipped :
    (∀ target timeout,
      resolveModules { target := target, modules := none, timeout := timeout } =
        ["nuclei", "nikto", "zap"]) ∧
    (∀ t beh m, m ∉ module_funcs_keys → ∀ l1 l2 : List String,
      runModulesLoop t beh (l1 ++ m :: l2) = runModulesLoop t beh (l1 ++ l2)) ∧
    (∀ t beh m, m ∉ module_funcs_keys →
      ∀ l : List String, ∀ e ∈ (runModulesLoop t beh l).1,
        e.module ≠ some m) := by
  refine ⟨fun _ _ => rfl, ?_, ?_⟩
  · intro t beh m hm l1 l2
    exact runModulesLoop_unknown_erased t beh m hm l1 l2
  · intro t beh m hm l e he hcontra
    obtain ⟨m', _, hm'k, hmod⟩ := (runModulesLoop_provenance t beh l).1 e he
    rw [hmod] at hcontra
    injection hcontra with h
    exact hm (h ▸ hm'k)

/-- C9 witness: the default list for an omitted module set, and the
unknown name `"bogus"` erased from a concrete request. -/
theorem c9_unknown_silently_skipped_witness :
    resolveModules
        { target := "https://example.com", modules := none, timeout := 300 } =
      ["nuclei", "nikto", "zap"] ∧
    runModulesLoop "https://example.com" behW (["nuclei"] ++ "bogus" :: []) =
      runModulesLoop "https://example.com" behW (["nuclei"] ++ []) ∧
    ∀ e ∈ (runModulesLoop "https://example.com" behW ["nuclei", "bogus"]).1,
      e.module ≠ some "bogus" :=
  ⟨c9_unknown_silently_skipped.1 "https://example.com" 300,
   c9_unknown_silently_skipped.2.1 "https://example.com" behW "bogus"
     (by decide) ["nuclei"] [],
   c9_unknown_silently_skipped.2.2 "https://example.com" behW "bogus"
     (by decide) ["nuclei", "bogus"]⟩

/-! ### Hub lemmas -/

/-- Lookup after updating the looked-up key. -/
theorem alookup_aupdate {α : Type} (key : String) (f : α → α) :
    ∀ l : List (String × α),
      alookup (aupdate key f l) key = (alookup l key).map f := by
  intro l
  induction l with
  | nil => rfl
  | cons kv l ih =>
      obtain ⟨k, v⟩ := kv
      by_cases hk : k = key
      · simp [aupdate, alookup, hk]
      · simp [aupdate, alookup, hk, ih]

/-- Lookup of an absent key. -/
theorem alookup_eq_none_of_not_mem {α : Type} (key : String) :
    ∀ l : List (String × α), key ∉ l.map Prod.fst → alookup l key = none := by
  intro l
  induction l with
  | nil => intro _; rfl
  | cons kv l ih =>
      obtain ⟨k, v⟩ := kv
      intro hmem
      simp only [List.map_cons, List.mem_cons] at hmem
      push_neg at hmem
      have hk : ¬ (k = key) := fun hkk => hmem.1 hkk.symm
      simp [alookup, hk, ih hmem.2]

/-- With unique keys, removing a key makes its lookup fail. -/
theorem alookup_aremove_self {α : Type} (key : String) :
    ∀ l : List (String × α), (l.map Prod.fst).Nodup →
      alookup (aremove key l) key = none := by
  intro l
  induction l with
  | nil => intro _; rfl
  | cons kv l ih =>
      obtain ⟨k, v⟩ := kv
      intro hnodup
      simp only [List.map_cons, List.nodup_cons] at hnodup
      by_cases hk : k = key
      · subst hk
        simpa [aremove] using alookup_eq_none_of_not_mem k l hnodup.1
      · simp [aremove, alookup, hk, ih hnodup.2]

/-- Appending a record for a fresh key makes its lookup succeed. -/
theorem alookup_append_of_none {α : Type} (key : String) (v : α) :
    ∀ l : List (String × α), alookup l key = none →
      alookup (l ++ [(key, v)]) key = some v := by
  intro l
  induction l with
  | nil => intro _; simp [alookup]
  | cons kv l ih =>
      obtain ⟨k, w⟩ := kv
      intro hnone
      by_cases hk : k = key
      · subst hk
        exact absurd hnone (by simp [alookup])
      · simp only [alookup, hk, if_false, List.cons_append] at hnone ⊢
        exact ih hnone

/-- Overwrite-insert keeps every present key present. -/
theorem alookup_aset_isSome {α : Type} (key sid : String) (v : α) :
    ∀ l : List (String × α), (alookup l sid).isSome →
      (alookup (aset key v l) sid).isSome := by
  intro l
  induction l with
  | nil => intro hsome; simp [alookup] at hsome
  | cons kv l ih =>
      obtain ⟨k, w⟩ := kv
      intro hsome
      by_cases hk : k = key
      · by_cases hs : key = sid
        · simp [aset, alookup, hk, hs]
        · have hks : ¬ (k = sid) := fun hkk => hs (hk.symm.trans hkk)
          simp only [alookup, hks, if_false] at hsome
          simp [aset, alookup, hk, hs, hsome]
      · by_cases hs : k = sid
        · have hsk : ¬ (sid = key) := fun hkk => hk (hs.trans hkk)
          simp [aset, alookup, hk, hs, hsk]
        · simp only [alookup, hs, if_false] at hsome
          simp [aset, alookup, hk, hs, ih hsome]

/-- `send_log` appends the event to every queue of the scan. -/
theorem send_log_queues (h : HubState) (scan : String) (e : LogEvent) :
    alookup (send_log h scan e).queues scan =
      (alookup h.queues scan).map (List.map fun q => q ++ [e]) := by
  unfold send_log
  cases hq : alookup h.queues scan with
  | none => simp [hq]
  | some qs => simp [hq, alookup_aupdate]

/-- `send_log` never touches `_scan_status`. -/
theorem send_log_scanStatus (h : HubState) (scan : String) (e : LogEvent) :
    (send_log h scan e).scanStatus = h.scanStatus := by
  unfold send_log
  cases alookup h.queues scan <;> rfl

/-- Publishing a sequence appends it, in order, to every queue of the
scan. -/
theorem publishAll_queues (scan : String) :
    ∀ (evs : List LogEvent) (h : HubState),
      alookup (publishAll h scan evs).queues scan =
        (alookup h.queues scan).map (List.map fun q => q ++ evs) := by
  intro evs
  induction evs with
  | nil =>
      intro h
      show alookup h.queues scan = _
      cases alookup h.queues scan <;> simp
  | cons e evs ih =>
      intro h
      rw [show publishAll h scan (e :: evs) =
        publishAll (send_log h scan e) scan evs from rfl, ih, send_log_queues]
      cases alookup h.queues scan <;>
        simp [List.map_map, Function.comp_def, List.append_assoc]

/-- The loop stops at the first `complete`-typed entry, yielding each
prior event as a data frame. -/
theorem consumeSteps_no_complete :
    ∀ evs : List LogEvent, (∀ e ∈ evs, e.type ≠ LogType.complete) →
      consumeSteps (evs.map QueueStep.item ++ [QueueStep.item completeEvent]) =
        { frames := evs.map Frame.data ++ [Frame.data completeEvent]
          ended := true } := by
  intro evs
  induction evs with
  | nil => intro _; rfl
  | cons e evs ih =>
      intro h
      have he : ¬ (e.type = LogType.complete) := h e (List.mem_cons_self e evs)
      have hrest := fun x hx => h x (List.mem_cons_of_mem e hx)
      simp only [List.map_cons, List.cons_append, consumeSteps, he,
        if_false, List.append_eq, ih hrest]

/-- An idle subscriber yields one keepalive per 30-second window and its
loop never ends. -/
theorem consumeSteps_idle :
    ∀ k : Nat, consumeSteps (List.replicate k QueueStep.idle) =
      { frames := List.replicate k Frame.keepalive, ended := false } := by
  intro k
  induction k with
  | zero => rfl
  | succ k ih =>
      simp only [List.replicate_succ, consumeSteps, ih]

/-- C5: a subscriber registered (with a fresh, empty queue) before the
orchestrator publishes receives, after the `connected` frame, every event
published after its subscription in publish order, then exactly one
`complete` frame, and its stream then ends. -/
theorem c5_subscriber_stream_in_order (h : HubState) (scan : String)
    (qs : List Queue) (i : Nat) (evs : List LogEvent)
    (hq : alookup h.queues scan = some qs)
    (hi : qs[i]? = some [])
    (hnc : ∀ e ∈ evs, e.type ≠ LogType.complete) :
    (∃ qs', alookup
        (mark_scan_complete (publishAll h scan evs) scan).queues scan =
          some qs' ∧
      qs'[i]? = some (evs ++ [completeEvent])) ∧
    subscribeStream ((evs ++ [completeEvent]).map QueueStep.item) =
      { frames := Frame.data connectedEvent ::
          (evs.map Frame.data ++ [Frame.data completeEvent])
        ended := true } ∧
    (Frame.data connectedEvent ::
        (evs.map Frame.data ++ [Frame.data completeEvent])).countP
      isCompleteFrame = 1 := by
  refine ⟨?_, ?_, ?_⟩
  · rw [mark_scan_complete, send_log_queues, publishAll_queues, hq]
    refine ⟨((qs.map fun q => q ++ evs).map fun q => q ++ [completeEvent]),
      rfl, ?_⟩
    rw [List.getElem?_map, List.getElem?_map, hi]
    simp
  · simp only [subscribeStream, List.map_append, List.map_cons,
      List.map_nil, consumeSteps_no_complete evs hnc]
  · have h0 : (evs.map Frame.data).countP isCompleteFrame = 0 := by
      rw [List.countP_eq_zero]
      intro f hf
      rw [List.mem_map] at hf
      obtain ⟨e, he, rfl⟩ := hf
      simpa [isCompleteFrame] using hnc e he
    simp [List.countP_cons, List.countP_append, h0, isCompleteFrame,
      completeEvent, connectedEvent, LogEvent.basic]

/-- C5 witness: one subscriber, one published `info` event, then
completion. -/
theorem c5_subscriber_stream_in_order_witness :
    (∃ qs', alookup
        (mark_scan_complete
          (publishAll (hubSubscribe (hubStartScan hubInit "s") "s") "s"
            [LogEvent.basic .info "x"]) "s").queues "s" = some qs' ∧
      qs'[0]? = some ([LogEvent.basic .info "x"] ++ [completeEvent])) ∧
    subscribeStream (([LogEvent.basic .info "x"] ++ [completeEvent]).map
        QueueStep.item) =
      { frames := Frame.data connectedEvent ::
          ([LogEvent.basic .info "x"].map Frame.data ++
            [Frame.data completeEvent])
        ended := true } ∧
    (Frame.data connectedEvent ::
        ([LogEvent.basic .info "x"].map Frame.data ++
          [Frame.data completeEvent])).countP isCompleteFrame = 1 :=
  c5_subscriber_stream_in_order (hubSubscribe (hubStartScan hubInit "s") "s")
    "s" [[]] 0 [LogEvent.basic .info "x"] (by decide) (by decide) (by decide)

/-- C6 counterexample: in the concrete run behind `lateHub` (scan "s"
published one event, completed, its subscriber left, then a late
subscriber joined), the late subscriber's queue holds no replayed event,
but its stream does NOT end after the `connected` frame: the loop keeps
yielding keepalives (`ended = false`), because `subscribe` never consults
the scan's completion state. -/
theorem c6_counterexample :
    alookup lateHub.queues "s" = some [[]] ∧
    (subscribeStream []).ended = false ∧
    (subscribeStream [QueueStep.idle]).frames =
      [Frame.data connectedEvent, Frame.keepalive] ∧
    (subscribeStream [QueueStep.idle]).ended = false := by
  decide

/-- C6 amended: a subscriber that joins after `markComplete` starts from
an empty queue — no previously published event is replayed — and yields
the `connected` frame; but its stream does not end on its own: with
nothing left to deliver it yields only keepalives, indefinitely, until
the client disconnects. -/
theorem c6_late_subscriber_no_replay (h : HubState) (scan : String) (k : Nat) :
    ((alookup (hubSubscribe h scan).queues scan).map fun qs => qs.getLast?) =
      some (some ([] : Queue)) ∧
    subscribeStream (List.replicate k QueueStep.idle) =
      { frames := Frame.data connectedEvent ::
          List.replicate k Frame.keepalive
        ended := false } := by
  constructor
  · unfold hubSubscribe
    cases hq : alookup h.queues scan with
    | none => simp [alookup_append_of_none scan [[]] h.queues hq]
    | some qs => simp [alookup_aupdate, hq, List.getLast?_concat]
  · simp only [subscribeStream, consumeSteps_idle]

/-- C8 counterexample: after the two completed scans of `historicalHub`
(no subscriber ever attached, both published `complete`), the Hub retains
a `_scan_status` entry for each historical scan even though its
`_queues` dict is empty — retained state grows with historical scans,
not with concurrently active ones. -/
theorem c8_counterexample :
    historicalHub.queues = [] ∧
    historicalHub.scanStatus.length = 2 ∧
    hubRetainsScan historicalHub "scan-a" = true ∧
    hubRetainsScan historicalHub "scan-b" = true := by
  decide

/-- C8 amended: the Hub does delete a scan's `_queues` entry as soon as
its last subscriber detaches, so `_queues` holds only scans with live
subscribers; but no Hub operation ever removes a `_scan_status` entry
(queue operations leave it untouched and scan start only inserts), so
the Hub's total retained state is not bounded by the concurrently active
scans. -/
theorem c8_registry_discarded_status_retained (h : HubState) (scan : String)
    (q : Queue) (hnodup : (h.queues.map Prod.fst).Nodup)
    (hq : alookup h.queues scan = some [q]) :
    alookup (hubUnsubscribe h scan 0).queues scan = none ∧
    (∀ e, (send_log h scan e).scanStatus = h.scanStatus) ∧
    (hubSubscribe h scan).scanStatus = h.scanStatus ∧
    (∀ i, (hubUnsubscribe h scan i).scanStatus = h.scanStatus) ∧
    (mark_scan_complete h scan).scanStatus = h.scanStatus ∧
    (∀ sid other, (alookup h.scanStatus sid).isSome →
      (alookup (hubStartScan h other).scanStatus sid).isSome) := by
  refine ⟨?_, ?_, ?_, ?_, ?_, ?_⟩
  · unfold hubUnsubscribe
    rw [hq]
    simp only [List.eraseIdx, List.isEmpty_nil, if_true]
    exact alookup_aremove_self scan h.queues hnodup
  · intro e
    exact send_log_scanStatus h scan e
  · unfold hubSubscribe
    cases alookup h.queues scan <;> rfl
  · intro i
    unfold hubUnsubscribe
    cases alookup h.queues scan with
    | none => rfl
    | some qs =>
        simp only
        split <;> rfl
  · exact send_log_scanStatus h scan completeEvent
  · intro sid other hsome
    exact alookup_aset_isSome other sid "running" h.scanStatus hsome

/-- C8 witness: one scan with one subscriber that detaches. -/
theorem c8_registry_discarded_status_retained_witness :
    alookup (hubUnsubscribe (hubSubscribe (hubStartScan hubInit "s") "s")
        "s" 0).queues "s" = none ∧
    (∀ e, (send_log (hubSubscribe (hubStartScan hubInit "s") "s") "s"
        e).scanStatus =
      (hubSubscribe (hubStartScan hubInit "s") "s").scanStatus) ∧
    (hubSubscribe (hubSubscribe (hubStartScan hubInit "s") "s")
        "s").scanStatus =
      (hubSubscribe (hubStartScan hubInit "s") "s").scanStatus ∧
    (∀ i, (hubUnsubscribe (hubSubscribe (hubStartScan hubInit "s") "s")
        "s" i).scanStatus =
      (hubSubscribe (hubStartScan hubInit "s") "s").scanStatus) ∧
    (mark_scan_complete (hubSubscribe (hubStartScan hubInit "s") "s")
        "s").scanStatus =
      (hubSubscribe (hubStartScan hubInit "s") "s").scanStatus ∧
    (∀ sid other,
      (alookup (hubSubscribe (hubStartScan hubInit "s") "s").scanStatus
          sid).isSome →
      (alookup (hubStartScan (hubSubscribe (hubStartScan hubInit "s") "s")
          other).scanStatus sid).isSome) :=
  c8_registry_discarded_status_retained
    (hubSubscribe (hubStartScan hubInit "s") "s") "s" [] (by decide)
    (by decide)

/-- C2 witness: the persistence step of a concrete request. -/
theorem c2_terminal_status_success_witness :
    (runScansDbOps reqW behW).getLast? = some (DbOp.updateStatus .success) ∧
    (runScansDbOps reqW behW).dropLast =
      (runScansResults reqW behW).map DbOp.saveResult ∧
    finalScanRecord 10 20 (runScansDbOps reqW behW) =
      { status := .success, started_at := 10, completed_at := some 20 } ∧
    (∀ st, DbOp.updateStatus st ∈ runScansDbOps reqW behW →
      st = ScanStatus.success) :=
  c2_terminal_status_success reqW behW 10 20

/-- C3 witness: a timed-out nuclei run at concrete inputs. -/
theorem c3_timeout_never_success_witness :
    (docker_run .timedOut).killed = true ∧
    (docker_run .timedOut).result.timeout = true ∧
    run_nuclei_scan "https://example.com" 0 5 (.run .timedOut [] none) =
      .ok { module := "nuclei"
            category := .quick
            target := "https://example.com"
            timestamp := 0
            duration_ms := 5
            status := .timeout
            data := none
            findings := []
            error := some "Scan timed out" } ∧
    (∀ (cleanupError : Option String) (r : CheckResult),
      run_nuclei_scan "https://example.com" 0 5
          (.run .timedOut [] cleanupError) = .ok r →
      r.status = ScanStatus.timeout ∧ r.findings = [] ∧
        r.status ≠ ScanStatus.success) :=
  c3_timeout_never_success "https://example.com" 0 5 []

/-- C4 witness: every containment and propagation path at concrete
inputs. -/
theorem c4_amended_normalizes_only_try_witness :
    run_nuclei_scan "https://example.com" 0 5 (.raised "boom" none) =
      .ok { module := "nuclei"
            category := .quick
            target := "https://example.com"
            timestamp := 0
            duration_ms := 5
            status := .error
            data := none
            findings := []
            error := some "boom" } ∧
    run_nuclei_scan "https://example.com" 0 5 (.setupFailed "mkdir failed") =
      .error "mkdir failed" ∧
    run_nuclei_scan "https://example.com" 0 5
        (.raised "boom" (some "unlink failed")) = .error "unlink failed" ∧
    run_nuclei_scan "https://example.com" 0 5
        (.run .timedOut [] (some "unlink failed")) = .error "unlink failed" ∧
    (∃ r, run_nuclei_scan "https://example.com" 0 5
        (.run (.failed "daemon down") [] none) = .ok r ∧
      r.status = ScanStatus.success ∧ r.error = none) :=
  ⟨c4_amended_normalizes_only_try.1 "https://example.com" 0 5 "boom",
   c4_amended_normalizes_only_try.2.1 "https://example.com" 0 5 "mkdir failed",
   c4_amended_normalizes_only_try.2.2.1 "https://example.com" 0 5 "boom"
     "unlink failed",
   c4_amended_normalizes_only_try.2.2.2.1 "https://example.com" 0 5 .timedOut
     [] "unlink failed",
   c4_amended_normalizes_only_try.2.2.2.2 "https://example.com" 0 5
     "daemon down" []⟩

/-- C6 witness: a late subscriber against an arbitrary concrete hub. -/
theorem c6_late_subscriber_no_replay_witness :
    ((alookup (hubSubscribe hubInit "s").queues "s").map fun qs =>
        qs.getLast?) = some (some ([] : Queue)) ∧
    subscribeStream (List.replicate 1 QueueStep.idle) =
      { frames := Frame.data connectedEvent ::
          List.replicate 1 Frame.keepalive
        ended := false } :=
  c6_late_subscriber_no_replay hubInit "s" 1

/-- C7 witness: the lifecycle of a concrete request. -/
theorem c7_single_terminal_transition_witness :
    (∀ p ∈ statusChanges (scanLifecycleTrace reqW behW 10 20),
      p.1.status = ScanStatus.running ∧ isTerminal p.2.status = true) ∧
    (completionWrites (scanLifecycleTrace reqW behW 10 20)).length = 1 ∧
    (∀ p ∈ completionWrites (scanLifecycleTrace reqW behW 10 20),
      p.1.completed_at = none ∧ p.2.completed_at = some 20 ∧
      p.1.status = ScanStatus.running ∧ isTerminal p.2.status = true) :=
  c7_single_terminal_transition reqW behW 10 20

/-- C10 witness: the timeout and exception paths at concrete inputs. -/
theorem c10_docker_run_total_witness :
    docker_run .timedOut =
      { result :=
          { stdout := ""
            stderr := "Command timed out"
            exit_code := -1
            timeout := true }
        killed := true } ∧
    docker_run (.failed "boom") =
      { result := { stdout := "", stderr := "boom", exit_code := -1, timeout := false }
        killed := false } :=
  ⟨c10_docker_run_total.2.1, c10_docker_run_total.2.2 "boom"⟩

end WebCheck
